import Mathlib

/-!
Verification of the infiniti-octagon Python client library.

The repository is a thin HTTP client: a central request caller
(`RWYAPICaller`) that builds URL paths, sends requests, and unwraps a
`{"data": ...}` JSON envelope, plus four endpoint groups (system, device,
pan-tilt, visible-lens) whose methods translate typed arguments into one
HTTP request each.

Embedding conventions:
- JSON values are the inductive `Json`; a Python value obtained from JSON
  is `Option Json`, where `none` is the Python `None` (JSON `null` parses
  to Python `None`, so extraction collapses `Json.null` to `none`).
- The HTTP transport is abstracted as a function from the request the
  client issues to an `HttpOutcome` (the response the caller receives, or
  a transport failure).  `Request.url` holds the path string the endpoint
  method passes to `get`/`post` (the `urljoin` with the base URL inside
  `_send_request` is not modelled; it does not affect any claim).
- Python exceptions are modelled with `Except PyExc`.  Values flowing
  through query-string f-string interpolation are pre-rendered to strings
  (`toString` for ints, `pyBoolStr` for bools) exactly as Python's
  `f"{key}={value}"` renders them.
- Each endpoint method is a function from the transport (and its
  arguments) to a pair: the value the Python method returns (or the
  exception it raises), and the list of HTTP requests it issued.
-/

/-- A JSON value, as parsed by `response.json()`. -/
inductive Json : Type where
  | null : Json
  | bool : Bool → Json
  | num : Rat → Json
  | str : String → Json
  | arr : List Json → Json
  | obj : List (String × Json) → Json

/-- Ordered-dictionary lookup on the fields of a JSON object
(Python `d[key]` / `key in d`; keys are unique in a parsed object, so
first-match lookup is exact). -/
def lookupField : List (String × Json) → String → Option Json
  | [], _ => none
  | (k, v) :: rest, key => if k = key then some v else lookupField rest key

/-- The Python value denoted by a JSON value: JSON `null` is Python `None`,
everything else is the value itself. -/
def pyValOfJson : Json → Option Json
  | .null => none
  | j => some j

/-- What the request caller receives for one HTTP request: a connection
failure, a non-2xx status (which `raise_for_status` turns into an
exception), a body that is not valid JSON (which `response.json()` turns
into an exception), or a successful response with a parsed JSON body. -/
inductive HttpOutcome : Type where
  | connectionError : HttpOutcome
  | httpStatusError : Nat → HttpOutcome
  | malformedJson : HttpOutcome
  | success : Json → HttpOutcome

/-- The Python exceptions relevant to this library.  All three transport
failures are subclasses of `requests.exceptions.RequestException`. -/
inductive PyExc : Type where
  | requestException : PyExc
  | typeError : PyExc
  | keyError : String → PyExc
  | valueError : PyExc
deriving DecidableEq

/-- One outbound HTTP request: method, the path string handed to
`get`/`post`, and the JSON body for POST requests. -/
structure Request : Type where
  method : String
  url : String
  payload : Option Json

/-- A mock transport: the outcome the caller receives for each request. -/
def Transport : Type := Request → HttpOutcome

/-- The `try:` block of `RWYAPICaller._send_request`: raise on transport
failure; on success, return the value under `data` when the body is a
mapping containing a `data` key, otherwise log a warning and return
`None`. -/
def RWYAPICaller.send_request_try : HttpOutcome → Except PyExc (Option Json)
  | .connectionError => .error .requestException
  | .httpStatusError _ => .error .requestException
  | .malformedJson => .error .requestException
  | .success body =>
    match body with
    | .obj fields =>
      match lookupField fields "data" with
      | some v => .ok (pyValOfJson v)
      | none => .ok none
    | _ => .ok none

/-- `RWYAPICaller._send_request`: the `try:` block wrapped in
`except requests.exceptions.RequestException: ... return None`. -/
def RWYAPICaller.send_request (o : HttpOutcome) : Except PyExc (Option Json) :=
  match RWYAPICaller.send_request_try o with
  | .ok r => .ok r
  | .error _ => .ok none

/-- `RWYAPICaller.get`: send a GET request and unwrap. -/
def RWYAPICaller.get (t : Transport) (endpoint : String) : Except PyExc (Option Json) :=
  RWYAPICaller.send_request (t ⟨"GET", endpoint, none⟩)

/-- `RWYAPICaller.post`: send a POST request with a JSON body and unwrap. -/
def RWYAPICaller.post (t : Transport) (endpoint : String) (payload : Json) :
    Except PyExc (Option Json) :=
  RWYAPICaller.send_request (t ⟨"POST", endpoint, some payload⟩)

/-- The value `_send_request` delivers for each outcome (it never raises,
see `send_request_eq_unwrap`). -/
def unwrapResponse : HttpOutcome → Option Json
  | .success (.obj fields) =>
    match lookupField fields "data" with
    | some v => pyValOfJson v
    | none => none
  | .success _ => none
  | _ => none

theorem send_request_eq_unwrap (o : HttpOutcome) :
    RWYAPICaller.send_request o = .ok (unwrapResponse o) := by
  cases o with
  | success body =>
    cases body with
    | obj fields =>
      simp only [RWYAPICaller.send_request, RWYAPICaller.send_request_try, unwrapResponse]
      cases lookupField fields "data" <;> rfl
    | null => rfl
    | bool b => rfl
    | num q => rfl
    | str s => rfl
    | arr xs => rfl
  | connectionError => rfl
  | httpStatusError s => rfl
  | malformedJson => rfl

/-- `RWYAPICaller._build_path`. -/
def RWYAPICaller.build_path (base_url endpoint : String) (sub_path : Option String) : String :=
  match sub_path with
  | none => base_url ++ "/" ++ endpoint
  | some sp => base_url ++ "/" ++ endpoint ++ "/" ++ sp

/-- `RWYAPICaller._build_path_with_query`.  `query_params` is an
insertion-ordered mapping; `if query_params:` is false for Python `None`
and for the empty dict. -/
def RWYAPICaller.build_path_with_query (base_url endpoint : String) (sub_path : Option String)
    (query_params : Option (List (String × String))) : String :=
  let path := RWYAPICaller.build_path base_url endpoint sub_path
  match query_params with
  | none => path
  | some [] => path
  | some ps => path ++ "?" ++ String.intercalate "&" (ps.map fun kv => kv.1 ++ "=" ++ kv.2)

/-- A `get` call as seen from an endpoint method: the unwrapped value it
returns and the single HTTP request it issues. -/
def callerGet (t : Transport) (url : String) : Option Json × List Request :=
  (unwrapResponse (t ⟨"GET", url, none⟩), [⟨"GET", url, none⟩])

/-- A `post` call as seen from an endpoint method. -/
def callerPost (t : Transport) (url : String) (payload : Json) : Option Json × List Request :=
  (unwrapResponse (t ⟨"POST", url, some payload⟩), [⟨"POST", url, some payload⟩])

/-- Python subscripting `v[key]` on a value that may be `None`:
`None[key]` and subscripting a non-mapping raise `TypeError`; a missing
key raises `KeyError`. -/
def pySubscript (v : Option Json) (key : String) : Except PyExc Json :=
  match v with
  | none => .error .typeError
  | some (.obj fields) =>
    match lookupField fields key with
    | some x => .ok x
    | none => .error (.keyError key)
  | some _ => .error .typeError

/-- Python's rendering of a bool in an f-string (`f"{True}"` is `"True"`). -/
def pyBoolStr (b : Bool) : String := if b then "True" else "False"

/-- Python's `str` on an `Optional[int]` (`str(None)` is `"None"`). -/
def pyStrOptInt : Option Int → String
  | none => "None"
  | some n => toString n

/-- The fixed path prefix of `PanTiltEndpoint`. -/
def PanTiltEndpoint.endpoint : String := "api/devices/pantilt"

/-- `PanTiltEndpoint.get_status`: GET on the bare endpoint, payload
returned as-is. -/
def PanTiltEndpoint.get_status (t : Transport) : Option Json × List Request :=
  callerGet t PanTiltEndpoint.endpoint

/-- `PanTiltEndpoint.get_position`: GET on `<endpoint>/position`, then
`data['pan'], data['tilt']`. -/
def PanTiltEndpoint.get_position (t : Transport) (base : String) :
    Except PyExc (Json × Json) × List Request :=
  let r := callerGet t (RWYAPICaller.build_path base PanTiltEndpoint.endpoint (some "position"))
  (do
    let p ← pySubscript r.1 "pan"
    let ti ← pySubscript r.1 "tilt"
    pure (p, ti), r.2)

/-- `PanTiltEndpoint.set_position`: POST `{"pan": pan, "tilt": tilt}` to
`<endpoint>/position`, response returned as-is. -/
def PanTiltEndpoint.set_position (t : Transport) (base : String) (pan tilt : Int) :
    Option Json × List Request :=
  let data := Json.obj [("pan", Json.num (pan : Rat)), ("tilt", Json.num (tilt : Rat))]
  callerPost t (RWYAPICaller.build_path base PanTiltEndpoint.endpoint (some "position")) data

/-- `PanTiltEndpoint.relative_move`: command-dispatch GET with
`command=move`, `direction`, then either `speed` or
`panSpeed`/`tiltSpeed`. -/
def PanTiltEndpoint.relative_move (t : Transport) (base : String) (move_direction : String)
    (speed pan_speed tilt_speed : Option Int) : Option Json × List Request :=
  let query_params := [("command", "move"), ("direction", move_direction)]
  let query_params :=
    match speed with
    | some s => query_params ++ [("speed", toString s)]
    | none => query_params ++
        [("panSpeed", pyStrOptInt pan_speed), ("tiltSpeed", pyStrOptInt tilt_speed)]
  callerGet t (RWYAPICaller.build_path_with_query base PanTiltEndpoint.endpoint none
    (some query_params))

/-- `PanTiltEndpoint.stop`: command-dispatch GET with `command=stop`. -/
def PanTiltEndpoint.stop (t : Transport) (base : String) : Option Json × List Request :=
  callerGet t (RWYAPICaller.build_path_with_query base PanTiltEndpoint.endpoint none
    (some [("command", "stop")]))

/-- `PanTiltEndpoint.continuous_move`: derive per-axis direction tokens
from the signs of the speeds; when both are zero call `stop` (its
response is discarded and the method falls off the end, returning
`None`); otherwise issue one `command=move` GET whose direction is the
tilt token followed by the pan token and whose speed parameters are a
single `speed` when one axis is zero, else `panSpeed`/`tiltSpeed`. -/
def PanTiltEndpoint.continuous_move (t : Transport) (base : String)
    (pan_speed tilt_speed : Int) : Option Json × List Request :=
  let pan_direction : Option String :=
    if pan_speed > 0 then some "right" else if pan_speed < 0 then some "left" else none
  let tilt_direction : Option String :=
    if tilt_speed > 0 then some "up" else if tilt_speed < 0 then some "down" else none
  if pan_direction.isNone && tilt_direction.isNone then
    (none, (PanTiltEndpoint.stop t base).2)
  else
    let move_direction := "" ++ (match tilt_direction with | some d => d | none => "")
      ++ (match pan_direction with | some d => d | none => "")
    let query_params := [("command", "move"), ("direction", move_direction)]
    let query_params := query_params ++
      (if pan_speed = 0 ∨ tilt_speed = 0 then
        [("speed", toString (max pan_speed.natAbs tilt_speed.natAbs))]
      else
        [("panSpeed", toString pan_speed.natAbs), ("tiltSpeed", toString tilt_speed.natAbs)])
    callerGet t (RWYAPICaller.build_path_with_query base PanTiltEndpoint.endpoint none
      (some query_params))

/-- `PanTiltEndpoint.home`: command-dispatch GET with `command=home`. -/
def PanTiltEndpoint.home (t : Transport) (base : String) : Option Json × List Request :=
  callerGet t (RWYAPICaller.build_path_with_query base PanTiltEndpoint.endpoint none
    (some [("command", "home")]))

/-- `PanTiltEndpoint.get_config`: GET on `<endpoint>/config`. -/
def PanTiltEndpoint.get_config (t : Transport) (base : String) : Option Json × List Request :=
  callerGet t (RWYAPICaller.build_path base PanTiltEndpoint.endpoint (some "config"))

/-- `PanTiltEndpoint.get_gyrostatus`: GET on `<endpoint>/gyro`. -/
def PanTiltEndpoint.get_gyrostatus (t : Transport) (base : String) : Option Json × List Request :=
  callerGet t (RWYAPICaller.build_path base PanTiltEndpoint.endpoint (some "gyro"))

/-- `PanTiltEndpoint.set_gyrostatus`: GET on `<endpoint>/gyro` with
`enable=<status>` (the bool is rendered by the f-string). -/
def PanTiltEndpoint.set_gyrostatus (t : Transport) (base : String) (status : Bool) :
    Option Json × List Request :=
  callerGet t (RWYAPICaller.build_path_with_query base PanTiltEndpoint.endpoint (some "gyro")
    (some [("enable", pyBoolStr status)]))

/-- `PanTiltEndpoint.get_ethernet_config`: GET on `<endpoint>/ethernet`. -/
def PanTiltEndpoint.get_ethernet_config (t : Transport) (base : String) :
    Option Json × List Request :=
  callerGet t (RWYAPICaller.build_path base PanTiltEndpoint.endpoint (some "ethernet"))

/-- The fixed path prefix of `VisibleLensEndpoint`. -/
def VisibleLensEndpoint.endpoint : String := "api/devices/visible"

/-- `VisibleLensEndpoint.get_visiblelens`: GET on `<endpoint>/position`,
then `resp["zoom"], resp["focus"]`. -/
def VisibleLensEndpoint.get_visiblelens (t : Transport) (base : String) :
    Except PyExc (Json × Json) × List Request :=
  let r := callerGet t
    (RWYAPICaller.build_path base VisibleLensEndpoint.endpoint (some "position"))
  (do
    let z ← pySubscript r.1 "zoom"
    let f ← pySubscript r.1 "focus"
    pure (z, f), r.2)

/-- `VisibleLensEndpoint.set_zoom`: POST `{"zoom": zoom}` to
`<endpoint>/position`; result is `response is None`. -/
def VisibleLensEndpoint.set_zoom (t : Transport) (base : String) (zoom : Int) :
    Bool × List Request :=
  let data := Json.obj [("zoom", Json.num (zoom : Rat))]
  let r := callerPost t
    (RWYAPICaller.build_path base VisibleLensEndpoint.endpoint (some "position")) data
  (r.1.isNone, r.2)

/-- `VisibleLensEndpoint.set_visiblelens`: POST `{"zoom": zoom, "focus":
focus}` to `<endpoint>/position`; result is `response is None`. -/
def VisibleLensEndpoint.set_visiblelens (t : Transport) (base : String) (zoom focus : Int) :
    Bool × List Request :=
  let data := Json.obj [("zoom", Json.num (zoom : Rat)), ("focus", Json.num (focus : Rat))]
  let r := callerPost t
    (RWYAPICaller.build_path base VisibleLensEndpoint.endpoint (some "position")) data
  (r.1.isNone, r.2)

/-- The allow-list of `VisibleLensEndpoint.set_color`. -/
def VisibleLensEndpoint.valid_color_modes : List String := ["day", "night", "autoColor"]

/-- `VisibleLensEndpoint.set_color`: raise `ValueError` when `mode` is not
in the allow-list (before any request); otherwise GET with
`command=<mode>`; result is `response is None`. -/
def VisibleLensEndpoint.set_color (t : Transport) (base : String) (mode : String) :
    Except PyExc Bool × List Request :=
  if mode ∉ VisibleLensEndpoint.valid_color_modes then
    (.error .valueError, [])
  else
    let r := callerGet t (RWYAPICaller.build_path_with_query base VisibleLensEndpoint.endpoint
      none (some [("command", mode)]))
    (.ok r.1.isNone, r.2)

/-- `VisibleLensEndpoint.run_backfocus`: GET with `command=backfocus`;
result is `response is None`. -/
def VisibleLensEndpoint.run_backfocus (t : Transport) (base : String) : Bool × List Request :=
  let r := callerGet t (RWYAPICaller.build_path_with_query base VisibleLensEndpoint.endpoint
    none (some [("command", "backfocus")]))
  (r.1.isNone, r.2)

/-- `VisibleLensEndpoint.set_digitalzoom`: GET with
`command=digitialZoom&mode=<mode>` (typo preserved from the source);
result is `response is None`. -/
def VisibleLensEndpoint.set_digitalzoom (t : Transport) (base : String) (mode : String) :
    Bool × List Request :=
  let r := callerGet t (RWYAPICaller.build_path_with_query base VisibleLensEndpoint.endpoint
    none (some [("command", "digitialZoom"), ("mode", mode)]))
  (r.1.isNone, r.2)

/-- `VisibleLensEndpoint.set_digital_stabilization`: GET with
`command=stabilization&enable=<enable>`; result is `response is None`. -/
def VisibleLensEndpoint.set_digital_stabilization (t : Transport) (base : String)
    (enable : Bool) : Bool × List Request :=
  let r := callerGet t (RWYAPICaller.build_path_with_query base VisibleLensEndpoint.endpoint
    none (some [("command", "stabilization"), ("enable", pyBoolStr enable)]))
  (r.1.isNone, r.2)

/-- The allow-list of `VisibleLensEndpoint.move_lens`. -/
def VisibleLensEndpoint.valid_zooms : List String :=
  ["zoomTele", "zoomWide", "focusFar", "focusNear"]

/-- `VisibleLensEndpoint.move_lens`: raise `ValueError` when `zoom_move`
is not in the allow-list; otherwise GET with `command=<zoom_move>`;
result is `response is None`. -/
def VisibleLensEndpoint.move_lens (t : Transport) (base : String) (zoom_move : String) :
    Except PyExc Bool × List Request :=
  if zoom_move ∉ VisibleLensEndpoint.valid_zooms then
    (.error .valueError, [])
  else
    let r := callerGet t (RWYAPICaller.build_path_with_query base VisibleLensEndpoint.endpoint
      none (some [("command", zoom_move)]))
    (.ok r.1.isNone, r.2)

/-- `VisibleLensEndpoint.stop_lens`: GET with `command=stop`; result is
`response is None`. -/
def VisibleLensEndpoint.stop_lens (t : Transport) (base : String) : Bool × List Request :=
  let r := callerGet t (RWYAPICaller.build_path_with_query base VisibleLensEndpoint.endpoint
    none (some [("command", "stop")]))
  (r.1.isNone, r.2)

/-- `VisibleLensEndpoint.set_fogfilter`: GET with
`command=fogFilter&state=<state>`; result is `response is None`. -/
def VisibleLensEndpoint.set_fogfilter (t : Transport) (base : String) (state : Bool) :
    Bool × List Request :=
  let r := callerGet t (RWYAPICaller.build_path_with_query base VisibleLensEndpoint.endpoint
    none (some [("command", "fogFilter"), ("state", pyBoolStr state)]))
  (r.1.isNone, r.2)

/-- `VisibleLensEndpoint.set_autofocus_mode`: GET with
`command=zoomTriggerAutofocus&enable=<enable>`; result is
`response is None`. -/
def VisibleLensEndpoint.set_autofocus_mode (t : Transport) (base : String) (enable : Bool) :
    Bool × List Request :=
  let r := callerGet t (RWYAPICaller.build_path_with_query base VisibleLensEndpoint.endpoint
    none (some [("command", "zoomTriggerAutofocus"), ("enable", pyBoolStr enable)]))
  (r.1.isNone, r.2)

/-- `VisibleLensEndpoint.autofocus`: GET with `command=autofocus`; result
is `response is None`. -/
def VisibleLensEndpoint.autofocus (t : Transport) (base : String) : Bool × List Request :=
  let r := callerGet t (RWYAPICaller.build_path_with_query base VisibleLensEndpoint.endpoint
    none (some [("command", "autofocus")]))
  (r.1.isNone, r.2)

/-- The allow-list of `VisibleLensEndpoint.set_heatwave_intensity`. -/
def VisibleLensEndpoint.valid_heatwave_modes : List String := ["Low", "Medium", "High"]

/-- `VisibleLensEndpoint.set_heatwave_intensity`: raise `ValueError` when
`mode` is not in the allow-list; otherwise GET with
`command=heatwaveIntensityMode&mode=<mode>`; result is
`response is None`. -/
def VisibleLensEndpoint.set_heatwave_intensity (t : Transport) (base : String) (mode : String) :
    Except PyExc Bool × List Request :=
  if mode ∉ VisibleLensEndpoint.valid_heatwave_modes then
    (.error .valueError, [])
  else
    let r := callerGet t (RWYAPICaller.build_path_with_query base VisibleLensEndpoint.endpoint
      none (some [("command", "heatwaveIntensityMode"), ("mode", mode)]))
    (.ok r.1.isNone, r.2)

/-- `VisibleLensEndpoint.get_config`: GET on `<endpoint>/config`, payload
returned as-is. -/
def VisibleLensEndpoint.get_config (t : Transport) (base : String) :
    Option Json × List Request :=
  callerGet t (RWYAPICaller.build_path base VisibleLensEndpoint.endpoint (some "config"))

/-- `VisibleLensEndpoint.set_config`: POST the fixed default configuration
to `<endpoint>/config`; the response is returned as-is (not reduced to a
boolean, despite the docstring). -/
def VisibleLensEndpoint.set_config (t : Transport) (base : String) :
    Option Json × List Request :=
  let data := Json.obj
    [("2dnr", Json.num 55), ("3dnr", Json.num 55),
     ("autofocusMode", Json.str "ZOOM_TRIGGER"), ("colorMode", Json.str "AUTO"),
     ("focusMode", Json.str "DISABLED"), ("focusSpeed", Json.num 4),
     ("fogFilter", Json.bool false), ("gamma", Json.num 8),
     ("heatWaveMode", Json.str "OFF"), ("processingMode", Json.str "WDR"),
     ("sharpening", Json.num 5), ("stabilizing", Json.bool true),
     ("zoomSpeed", Json.num 1)]
  callerPost t (RWYAPICaller.build_path base VisibleLensEndpoint.endpoint (some "config")) data

/-- `VisibleLensEndpoint.zoomTele`: `move_lens("zoomTele")`. -/
def VisibleLensEndpoint.zoomTele (t : Transport) (base : String) :
    Except PyExc Bool × List Request :=
  VisibleLensEndpoint.move_lens t base "zoomTele"

/-- `VisibleLensEndpoint.zoomWide`: `move_lens("zoomWide")`. -/
def VisibleLensEndpoint.zoomWide (t : Transport) (base : String) :
    Except PyExc Bool × List Request :=
  VisibleLensEndpoint.move_lens t base "zoomWide"

/-- `VisibleLensEndpoint.focusFar`: `move_lens("focusFar")`. -/
def VisibleLensEndpoint.focusFar (t : Transport) (base : String) :
    Except PyExc Bool × List Request :=
  VisibleLensEndpoint.move_lens t base "focusFar"

/-- `VisibleLensEndpoint.focusNear`: `move_lens("focusNear")`. -/
def VisibleLensEndpoint.focusNear (t : Transport) (base : String) :
    Except PyExc Bool × List Request :=
  VisibleLensEndpoint.move_lens t base "focusNear"

/-- `VisibleLensEndpoint.continuous_zoom`: dispatch on the sign of
`speed` to `zoomTele`, `zoomWide`, or `stop_lens`. -/
def VisibleLensEndpoint.continuous_zoom (t : Transport) (base : String) (speed : Int) :
    Except PyExc Bool × List Request :=
  if speed > 0 then VisibleLensEndpoint.zoomTele t base
  else if speed < 0 then VisibleLensEndpoint.zoomWide t base
  else
    let r := VisibleLensEndpoint.stop_lens t base
    (.ok r.1, r.2)

/-- The fixed path prefix of `DeviceEndpoint`. -/
def DeviceEndpoint.endpoint : String := "api/devices"

/-- `DeviceEndpoint.get_devices`: GET on the bare endpoint. -/
def DeviceEndpoint.get_devices (t : Transport) : Option Json × List Request :=
  callerGet t DeviceEndpoint.endpoint

/-- `DeviceEndpoint.get_device_state`: GET on `<endpoint>/<device_name>`. -/
def DeviceEndpoint.get_device_state (t : Transport) (base device_name : String) :
    Option Json × List Request :=
  callerGet t (RWYAPICaller.build_path base DeviceEndpoint.endpoint (some device_name))

/-- `DeviceEndpoint.reinitialize_device`: GET on `<endpoint>/<device_name>`
with a `command` query parameter requesting initialization. -/
def DeviceEndpoint.reinitialize_device (t : Transport) (base device_name : String) :
    Option Json × List Request :=
  callerGet t (RWYAPICaller.build_path_with_query base DeviceEndpoint.endpoint
    (some device_name) (some [("command", "initialize")]))

/-- The fixed path prefix of `SystemEndpoint` (note the leading slash in
the source). -/
def SystemEndpoint.endpoint : String := "/api/system"

/-- `SystemEndpoint.get_status`: GET on the bare endpoint. -/
def SystemEndpoint.get_status (t : Transport) : Option Json × List Request :=
  callerGet t SystemEndpoint.endpoint

/-- `SystemEndpoint.get_versions`: GET on `<endpoint>/versions`. -/
def SystemEndpoint.get_versions (t : Transport) (base : String) : Option Json × List Request :=
  callerGet t (RWYAPICaller.build_path base SystemEndpoint.endpoint (some "versions"))

/-- `SystemEndpoint.get_info`: GET on `<endpoint>/info`. -/
def SystemEndpoint.get_info (t : Transport) (base : String) : Option Json × List Request :=
  callerGet t (RWYAPICaller.build_path base SystemEndpoint.endpoint (some "info"))

/-- `SystemEndpoint.get_time`: GET on `<endpoint>/time`. -/
def SystemEndpoint.get_time (t : Transport) (base : String) : Option Json × List Request :=
  callerGet t (RWYAPICaller.build_path base SystemEndpoint.endpoint (some "time"))

/-- `SystemEndpoint.set_time`: POST `{"timestamp": timestamp}` to
`<endpoint>/time`. -/
def SystemEndpoint.set_time (t : Transport) (base : String) (timestamp : Int) :
    Option Json × List Request :=
  let payload := Json.obj [("timestamp", Json.num (timestamp : Rat))]
  callerPost t (RWYAPICaller.build_path base SystemEndpoint.endpoint (some "time")) payload

/-- `SystemEndpoint.get_ethernet`: GET on `<endpoint>/ethernet`. -/
def SystemEndpoint.get_ethernet (t : Transport) (base : String) : Option Json × List Request :=
  callerGet t (RWYAPICaller.build_path base SystemEndpoint.endpoint (some "ethernet"))

/-- `SystemEndpoint.get_accounts`: GET on `<endpoint>/accounts`. -/
def SystemEndpoint.get_accounts (t : Transport) (base : String) : Option Json × List Request :=
  callerGet t (RWYAPICaller.build_path base SystemEndpoint.endpoint (some "accounts"))

/-- `SystemEndpoint.get_account`: GET on `<endpoint>/accounts/<name>`. -/
def SystemEndpoint.get_account (t : Transport) (base account_name : String) :
    Option Json × List Request :=
  callerGet t (RWYAPICaller.build_path base SystemEndpoint.endpoint
    (some ("accounts/" ++ account_name)))

/-- `SystemEndpoint.restart_hardware`: GET on `<endpoint>/` (empty
sub-path) with `command=hardwareRestart`. -/
def SystemEndpoint.restart_hardware (t : Transport) (base : String) :
    Option Json × List Request :=
  callerGet t (RWYAPICaller.build_path_with_query base SystemEndpoint.endpoint (some "")
    (some [("command", "hardwareRestart")]))

/-- `SystemEndpoint.restart_software`: GET on `<endpoint>/` (empty
sub-path) with `command=softwareRestart`. -/
def SystemEndpoint.restart_software (t : Transport) (base : String) :
    Option Json × List Request :=
  callerGet t (RWYAPICaller.build_path_with_query base SystemEndpoint.endpoint (some "")
    (some [("command", "softwareRestart")]))

/-- `SystemEndpoint.get_presets`: GET on `<endpoint>/presets`. -/
def SystemEndpoint.get_presets (t : Transport) (base : String) : Option Json × List Request :=
  callerGet t (RWYAPICaller.build_path base SystemEndpoint.endpoint (some "presets"))

/-- `SystemEndpoint.get_preset`: GET on `<endpoint>/presets/<id>`. -/
def SystemEndpoint.get_preset (t : Transport) (base : String) (preset_id : Int) :
    Option Json × List Request :=
  callerGet t (RWYAPICaller.build_path base SystemEndpoint.endpoint
    (some ("presets/" ++ toString preset_id)))

/-- `SystemEndpoint.delete_preset`: GET on `<endpoint>/presets/<id>` with
`action=clear`. -/
def SystemEndpoint.delete_preset (t : Transport) (base : String) (preset_id : Int) :
    Option Json × List Request :=
  callerGet t (RWYAPICaller.build_path_with_query base SystemEndpoint.endpoint
    (some ("presets/" ++ toString preset_id)) (some [("action", "clear")]))

/-- `SystemEndpoint.goto_preset`: GET on `<endpoint>/presets/<id>` with
`action=goto`. -/
def SystemEndpoint.goto_preset (t : Transport) (base : String) (preset_id : Int) :
    Option Json × List Request :=
  callerGet t (RWYAPICaller.build_path_with_query base SystemEndpoint.endpoint
    (some ("presets/" ++ toString preset_id)) (some [("action", "goto")]))

/-- `SystemEndpoint.stop_preset_move`: GET on `<endpoint>/presets` with
`command=stop`. -/
def SystemEndpoint.stop_preset_move (t : Transport) (base : String) :
    Option Json × List Request :=
  callerGet t (RWYAPICaller.build_path_with_query base SystemEndpoint.endpoint (some "presets")
    (some [("command", "stop")]))

/-- `SystemEndpoint.delete_all_presets`: GET on `<endpoint>/presets` with
`command=clearAll`. -/
def SystemEndpoint.delete_all_presets (t : Transport) (base : String) :
    Option Json × List Request :=
  callerGet t (RWYAPICaller.build_path_with_query base SystemEndpoint.endpoint (some "presets")
    (some [("command", "clearAll")]))

theorem unwrap_of_no_data (o : HttpOutcome) (fields : List (String × Json))
    (h1 : o = .success (.obj fields)) (h2 : lookupField fields "data" = none) :
    unwrapResponse o = none := by
  subst h1
  simp [unwrapResponse, h2]

/-- C1: for every HTTP outcome the request caller receives, `_send_request`
(and hence `get`/`post`) never raises: it always yields `.ok`.  When the
outcome is a successful response whose body is a mapping containing a
`data` key, the delivered value is the value under `data` (as a Python
value); in every other case — non-mapping JSON, mapping without `data`,
connection error, non-2xx status, malformed JSON — the delivered value is
the `None` sentinel. -/
theorem claim_C1_send_request_unwraps_and_never_raises (o : HttpOutcome) :
    RWYAPICaller.send_request o = .ok (unwrapResponse o) ∧
    (∀ fields v, o = .success (.obj fields) → lookupField fields "data" = some v →
      unwrapResponse o = pyValOfJson v) ∧
    ((∀ fields v, ¬(o = .success (.obj fields) ∧ lookupField fields "data" = some v)) →
      unwrapResponse o = none) ∧
    (∀ t ep payload,
      RWYAPICaller.get t ep = .ok (unwrapResponse (t ⟨"GET", ep, none⟩)) ∧
      RWYAPICaller.post t ep payload = .ok (unwrapResponse (t ⟨"POST", ep, some payload⟩))) := by
  refine ⟨send_request_eq_unwrap o, ?_, ?_, ?_⟩
  · rintro fields v rfl hv
    simp [unwrapResponse, hv]
  · intro hnone
    cases o with
    | success body =>
      cases body with
      | obj fields =>
        cases hv : lookupField fields "data" with
        | some v => exact absurd ⟨rfl, hv⟩ (hnone fields v)
        | none => exact unwrap_of_no_data _ fields rfl hv
      | null => rfl
      | bool b => rfl
      | num q => rfl
      | str s => rfl
      | arr xs => rfl
    | connectionError => rfl
    | httpStatusError s => rfl
    | malformedJson => rfl
  · intro t ep payload
    exact ⟨send_request_eq_unwrap _, send_request_eq_unwrap _⟩

theorem claim_C1_witness :
    unwrapResponse (.success (.obj [("data", Json.num 7)])) = some (Json.num 7) :=
  (claim_C1_send_request_unwraps_and_never_raises
    (.success (.obj [("data", Json.num 7)]))).2.1 [("data", Json.num 7)] (Json.num 7) rfl rfl

/-- C2 counterexample: against a transport whose every response is a
mapping without a `data` key (the caller therefore yields the `None`
sentinel), `get_position` and `get_visiblelens` do **not** return the
sentinel: they subscript the sentinel (`data['pan']`, `resp["zoom"]`) and
raise `TypeError`; and the boolean-reducing GET method `run_backfocus`
returns the boolean `True`, not the sentinel. -/
theorem claim_C2_counterexample :
    (PanTiltEndpoint.get_position
        (fun _ => .success (.obj [("status", Json.str "ok")])) "http://cam").1 =
      .error .typeError ∧
    (VisibleLensEndpoint.get_visiblelens
        (fun _ => .success (.obj [("status", Json.str "ok")])) "http://cam").1 =
      .error .typeError ∧
    (VisibleLensEndpoint.run_backfocus
        (fun _ => .success (.obj [("status", Json.str "ok")])) "http://cam").1 = true :=
  ⟨rfl, rfl, rfl⟩

/-- C2 amended: when every transport response is a mapping with no `data`
key (so the request caller yields the `None` sentinel), every GET-based
endpoint method of the four groups that returns the unwrapped payload
unchanged returns the absent-result sentinel and raises no exception;
the GET-based command methods that reduce the response with `is None`
return the boolean `True` (not the sentinel); and the two
field-destructuring getters `get_position` and `get_visiblelens` raise
`TypeError`, because they subscript the sentinel. -/
theorem claim_C2_amended (t : Transport) (base : String)
    (h : ∀ r, ∃ fields, t r = .success (.obj fields) ∧ lookupField fields "data" = none) :
    (PanTiltEndpoint.get_status t).1 = none ∧
    (PanTiltEndpoint.get_position t base).1 = .error .typeError ∧
    (∀ d s ps ts, (PanTiltEndpoint.relative_move t base d s ps ts).1 = none) ∧
    (∀ ps ts, (PanTiltEndpoint.continuous_move t base ps ts).1 = none) ∧
    (PanTiltEndpoint.stop t base).1 = none ∧
    (PanTiltEndpoint.home t base).1 = none ∧
    (PanTiltEndpoint.get_config t base).1 = none ∧
    (PanTiltEndpoint.get_gyrostatus t base).1 = none ∧
    (∀ s, (PanTiltEndpoint.set_gyrostatus t base s).1 = none) ∧
    (PanTiltEndpoint.get_ethernet_config t base).1 = none ∧
    (VisibleLensEndpoint.get_visiblelens t base).1 = .error .typeError ∧
    (∀ m, m ∈ VisibleLensEndpoint.valid_color_modes →
      (VisibleLensEndpoint.set_color t base m).1 = .ok true) ∧
    (VisibleLensEndpoint.run_backfocus t base).1 = true ∧
    (∀ m, (VisibleLensEndpoint.set_digitalzoom t base m).1 = true) ∧
    (∀ e, (VisibleLensEndpoint.set_digital_stabilization t base e).1 = true) ∧
    (∀ m, m ∈ VisibleLensEndpoint.valid_zooms →
      (VisibleLensEndpoint.move_lens t base m).1 = .ok true) ∧
    (VisibleLensEndpoint.stop_lens t base).1 = true ∧
    (∀ s, (VisibleLensEndpoint.set_fogfilter t base s).1 = true) ∧
    (∀ e, (VisibleLensEndpoint.set_autofocus_mode t base e).1 = true) ∧
    (VisibleLensEndpoint.autofocus t base).1 = true ∧
    (∀ m, m ∈ VisibleLensEndpoint.valid_heatwave_modes →
      (VisibleLensEndpoint.set_heatwave_intensity t base m).1 = .ok true) ∧
    (VisibleLensEndpoint.get_config t base).1 = none ∧
    (VisibleLensEndpoint.zoomTele t base).1 = .ok true ∧
    (VisibleLensEndpoint.zoomWide t base).1 = .ok true ∧
    (VisibleLensEndpoint.focusFar t base).1 = .ok true ∧
    (VisibleLensEndpoint.focusNear t base).1 = .ok true ∧
    (∀ s, (VisibleLensEndpoint.continuous_zoom t base s).1 = .ok true) ∧
    (DeviceEndpoint.get_devices t).1 = none ∧
    (∀ n, (DeviceEndpoint.get_device_state t base n).1 = none) ∧
    (∀ n, (DeviceEndpoint.reinitialize_device t base n).1 = none) ∧
    (SystemEndpoint.get_status t).1 = none ∧
    (SystemEndpoint.get_versions t base).1 = none ∧
    (SystemEndpoint.get_info t base).1 = none ∧
    (SystemEndpoint.get_time t base).1 = none ∧
    (SystemEndpoint.get_ethernet t base).1 = none ∧
    (SystemEndpoint.get_accounts t base).1 = none ∧
    (∀ n, (SystemEndpoint.get_account t base n).1 = none) ∧
    (SystemEndpoint.restart_hardware t base).1 = none ∧
    (SystemEndpoint.restart_software t base).1 = none ∧
    (SystemEndpoint.get_presets t base).1 = none ∧
    (∀ i, (SystemEndpoint.get_preset t base i).1 = none) ∧
    (∀ i, (SystemEndpoint.delete_preset t base i).1 = none) ∧
    (∀ i, (SystemEndpoint.goto_preset t base i).1 = none) ∧
    (SystemEndpoint.stop_preset_move t base).1 = none ∧
    (SystemEndpoint.delete_all_presets t base).1 = none := by
  have hu : ∀ r, unwrapResponse (t r) = none := by
    intro r
    obtain ⟨fs, h1, h2⟩ := h r
    exact unwrap_of_no_data _ fs h1 h2
  refine ⟨?_, ?_, ?_, ?_, ?_, ?_, ?_, ?_, ?_, ?_, ?_, ?_, ?_, ?_, ?_, ?_, ?_, ?_, ?_, ?_,
    ?_, ?_, ?_, ?_, ?_, ?_, ?_, ?_, ?_, ?_, ?_, ?_, ?_, ?_, ?_, ?_, ?_, ?_, ?_, ?_,
    ?_, ?_, ?_, ?_, ?_⟩ <;>
    try (intros; simp [*, PanTiltEndpoint.get_status, PanTiltEndpoint.get_position,
      PanTiltEndpoint.relative_move, PanTiltEndpoint.stop, PanTiltEndpoint.home,
      PanTiltEndpoint.get_config, PanTiltEndpoint.get_gyrostatus,
      PanTiltEndpoint.set_gyrostatus, PanTiltEndpoint.get_ethernet_config,
      VisibleLensEndpoint.get_visiblelens, VisibleLensEndpoint.set_color,
      VisibleLensEndpoint.run_backfocus, VisibleLensEndpoint.set_digitalzoom,
      VisibleLensEndpoint.set_digital_stabilization, VisibleLensEndpoint.move_lens,
      VisibleLensEndpoint.stop_lens, VisibleLensEndpoint.set_fogfilter,
      VisibleLensEndpoint.set_autofocus_mode, VisibleLensEndpoint.autofocus,
      VisibleLensEndpoint.set_heatwave_intensity, VisibleLensEndpoint.get_config,
      VisibleLensEndpoint.zoomTele, VisibleLensEndpoint.zoomWide,
      VisibleLensEndpoint.focusFar, VisibleLensEndpoint.focusNear,
      VisibleLensEndpoint.valid_zooms, DeviceEndpoint.get_devices,
      DeviceEndpoint.get_device_state, DeviceEndpoint.reinitialize_device,
      SystemEndpoint.get_status, SystemEndpoint.get_versions, SystemEndpoint.get_info,
      SystemEndpoint.get_time, SystemEndpoint.get_ethernet, SystemEndpoint.get_accounts,
      SystemEndpoint.get_account, SystemEndpoint.restart_hardware,
      SystemEndpoint.restart_software, SystemEndpoint.get_presets, SystemEndpoint.get_preset,
      SystemEndpoint.delete_preset, SystemEndpoint.goto_preset,
      SystemEndpoint.stop_preset_move, SystemEndpoint.delete_all_presets,
      callerGet, callerPost, hu, pySubscript, Except.bind]) <;>
    try rfl
  · intro ps ts
    simp only [PanTiltEndpoint.continuous_move]
    repeat' split
    all_goals simp [callerGet, hu]
  · rename_i m hm
    simp only [VisibleLensEndpoint.valid_zooms, List.mem_cons, List.not_mem_nil,
      or_false] at hm
    rcases hm with rfl | rfl | rfl | rfl <;> rfl
  · intro s
    simp only [VisibleLensEndpoint.continuous_zoom]
    split
    · simp [VisibleLensEndpoint.zoomTele, VisibleLensEndpoint.move_lens,
        VisibleLensEndpoint.valid_zooms, callerGet, hu]
    · split
      · simp [VisibleLensEndpoint.zoomWide, VisibleLensEndpoint.move_lens,
          VisibleLensEndpoint.valid_zooms, callerGet, hu]
      · simp [VisibleLensEndpoint.stop_lens, callerGet, hu]

theorem claim_C2_amended_witness :
    (PanTiltEndpoint.get_position (fun _ => HttpOutcome.success (Json.obj []))
        "http://cam").1 = .error .typeError ∧
    (VisibleLensEndpoint.set_color (fun _ => HttpOutcome.success (Json.obj []))
        "http://cam" "day").1 = .ok true ∧
    (VisibleLensEndpoint.move_lens (fun _ => HttpOutcome.success (Json.obj []))
        "http://cam" "zoomTele").1 = .ok true ∧
    (VisibleLensEndpoint.set_heatwave_intensity (fun _ => HttpOutcome.success (Json.obj []))
        "http://cam" "Low").1 = .ok true ∧
    (SystemEndpoint.get_versions (fun _ => HttpOutcome.success (Json.obj []))
        "http://cam").1 = none := by
  obtain ⟨h1, h2, h3, h4, h5, h6, h7, h8, h9, h10, h11, h12, h13, h14, h15, h16, h17, h18,
    h19, h20, h21, h22, h23, h24, h25, h26, h27, h28, h29, h30, h31, h32, h33, h34, h35,
    h36, h37, h38, h39, h40, h41, h42, h43, h44, h45⟩ :=
    claim_C2_amended (fun _ => HttpOutcome.success (Json.obj [])) "http://cam"
      (fun _ => ⟨[], rfl, rfl⟩)
  exact ⟨h2, h12 "day" (by decide), h16 "zoomTele" (by decide), h21 "Low" (by decide), h32⟩

/-- C3 counterexample: with a transport whose unwrapped response is the
absent-result sentinel, `set_position` returns the sentinel `None`
itself — not the boolean `True` — and with a transport whose unwrapped
response is a non-empty payload it returns that payload — not the boolean
`False`; `set_config` and the system `set_time` behave the same way.
These three state-setting POST methods pass the response through
unreduced. -/
theorem claim_C3_counterexample :
    (PanTiltEndpoint.set_position (fun _ => .success (.obj [("data", Json.null)]))
        "http://cam" 1 2).1 = none ∧
    (PanTiltEndpoint.set_position
        (fun _ => .success (.obj [("data", Json.obj [("ok", Json.bool true)])]))
        "http://cam" 1 2).1 = some (Json.obj [("ok", Json.bool true)]) ∧
    (VisibleLensEndpoint.set_config (fun _ => .success (.obj [("data", Json.null)]))
        "http://cam").1 = none ∧
    (SystemEndpoint.set_time (fun _ => .success (.obj [("data", Json.null)]))
        "http://cam" 0).1 = none :=
  ⟨rfl, rfl, rfl, rfl⟩

/-- C3 amended: the state-setting POST methods that reduce the response to
a boolean (`set_visiblelens`, `set_zoom`) return `True` exactly when the
unwrapped response of their single request is the absent-result sentinel
(and `False` otherwise); but `set_position`, `set_config`, and the system
`set_time` return the unwrapped response of their single request
unchanged. -/
theorem claim_C3_amended (t : Transport) (base : String)
    (zoom focus pan tilt timestamp : Int) :
    (∃ r, (VisibleLensEndpoint.set_visiblelens t base zoom focus).2 = [r] ∧
      ((VisibleLensEndpoint.set_visiblelens t base zoom focus).1 = true ↔
        unwrapResponse (t r) = none)) ∧
    (∃ r, (VisibleLensEndpoint.set_zoom t base zoom).2 = [r] ∧
      ((VisibleLensEndpoint.set_zoom t base zoom).1 = true ↔
        unwrapResponse (t r) = none)) ∧
    (∃ r, (PanTiltEndpoint.set_position t base pan tilt).2 = [r] ∧
      (PanTiltEndpoint.set_position t base pan tilt).1 = unwrapResponse (t r)) ∧
    (∃ r, (VisibleLensEndpoint.set_config t base).2 = [r] ∧
      (VisibleLensEndpoint.set_config t base).1 = unwrapResponse (t r)) ∧
    (∃ r, (SystemEndpoint.set_time t base timestamp).2 = [r] ∧
      (SystemEndpoint.set_time t base timestamp).1 = unwrapResponse (t r)) := by
  refine ⟨⟨_, rfl, ?_⟩, ⟨_, rfl, ?_⟩, ⟨_, rfl, rfl⟩, ⟨_, rfl, rfl⟩, ⟨_, rfl, rfl⟩⟩ <;>
    exact Option.isNone_iff_eq_none

/-- C6: `_build_path` with the sub-path omitted joins the base URL and the
prefix with `/` and no trailing segment; with the sub-path present it
joins base URL, prefix, and sub-path with `/`. -/
theorem claim_C6_build_path (base ep sp : String) :
    RWYAPICaller.build_path base ep none = base ++ "/" ++ ep ∧
    RWYAPICaller.build_path base ep (some sp) = base ++ "/" ++ ep ++ "/" ++ sp :=
  ⟨rfl, rfl⟩

/-- C7: for a non-empty query-parameter mapping, `_build_path_with_query`
is `_build_path`'s output followed by exactly one `?` and the `key=value`
pairs joined by `&` in insertion order; for an empty or absent mapping it
is `_build_path`'s output unchanged. -/
theorem claim_C7_build_path_with_query (base ep : String) (sub : Option String)
    (ps : List (String × String)) :
    (ps ≠ [] →
      RWYAPICaller.build_path_with_query base ep sub (some ps) =
        RWYAPICaller.build_path base ep sub ++ "?" ++
          String.intercalate "&" (ps.map fun kv => kv.1 ++ "=" ++ kv.2)) ∧
    RWYAPICaller.build_path_with_query base ep sub (some []) =
      RWYAPICaller.build_path base ep sub ∧
    RWYAPICaller.build_path_with_query base ep sub none =
      RWYAPICaller.build_path base ep sub := by
  refine ⟨fun hne => ?_, rfl, rfl⟩
  cases ps with
  | nil => exact absurd rfl hne
  | cons a l => rfl

theorem claim_C7_witness :
    RWYAPICaller.build_path_with_query "http://cam" "api/devices" none
        (some [("command", "stop")]) =
      RWYAPICaller.build_path "http://cam" "api/devices" none ++ "?" ++
        String.intercalate "&" ([("command", "stop")].map fun kv => kv.1 ++ "=" ++ kv.2) :=
  (claim_C7_build_path_with_query "http://cam" "api/devices" none
    [("command", "stop")]).1 (List.cons_ne_nil _ _)

/-- C8: against a transport answering `{"data": {"pan": 10.5, "tilt":
-3.2}}`, `get_position` returns the pair `(10.5, -3.2)` — the `pan` field
first and the `tilt` field second. -/
theorem claim_C8_get_position_pair (base : String) :
    (PanTiltEndpoint.get_position
        (fun _ => .success (.obj [("data",
          Json.obj [("pan", Json.num 10.5), ("tilt", Json.num (-3.2))])])) base).1 =
      .ok (Json.num 10.5, Json.num (-3.2)) :=
  rfl

/-- C4: `continuous_move(0, 0)` issues exactly one request, the stop
command (query string `command=stop`), and no move command;
`continuous_move(5, -3)` issues exactly one request, a move command whose
direction is `downright` (the `down` token followed by the `right`
token) with per-axis speed parameters `panSpeed=5` and `tiltSpeed=3`. -/
theorem claim_C4_continuous_move_commands (t : Transport) (base : String) :
    (PanTiltEndpoint.continuous_move t base 0 0).2 =
      [⟨"GET", RWYAPICaller.build_path_with_query base PanTiltEndpoint.endpoint none
          (some [("command", "stop")]), none⟩] ∧
    (PanTiltEndpoint.continuous_move t base 5 (-3)).2 =
      [⟨"GET", RWYAPICaller.build_path_with_query base PanTiltEndpoint.endpoint none
          (some [("command", "move"), ("direction", "downright"),
                 ("panSpeed", "5"), ("tiltSpeed", "3")]), none⟩] :=
  ⟨rfl, rfl⟩

/-- C5: for every mode outside the allow-list `["day", "night",
"autoColor"]`, `set_color` raises `ValueError` and issues no HTTP
request; `set_color("day")` issues exactly one GET whose query string
carries `command=day`. -/
theorem claim_C5_set_color_validation (t : Transport) (base mode : String)
    (h : mode ∉ VisibleLensEndpoint.valid_color_modes) :
    (VisibleLensEndpoint.set_color t base mode).1 = .error .valueError ∧
    (VisibleLensEndpoint.set_color t base mode).2 = [] ∧
    (VisibleLensEndpoint.set_color t base "day").2 =
      [⟨"GET", RWYAPICaller.build_path_with_query base VisibleLensEndpoint.endpoint none
          (some [("command", "day")]), none⟩] := by
  refine ⟨?_, ?_, rfl⟩ <;> simp [VisibleLensEndpoint.set_color, h]

theorem claim_C5_witness :
    (VisibleLensEndpoint.set_color (fun _ => HttpOutcome.success (Json.obj []))
        "http://cam" "invalid").1 = .error .valueError :=
  (claim_C5_set_color_validation (fun _ => HttpOutcome.success (Json.obj []))
    "http://cam" "invalid" (by decide)).1

/-- C9: every endpoint group method call that does not raise a local
validation error issues exactly one outbound HTTP request — no retries,
no pagination loops, no path issuing zero or more than one request —
including both branches of `continuous_move`.  For the three methods with
an enum allow-list the argument is assumed to pass validation; every
other method is unconditional. -/
theorem claim_C9_exactly_one_request :
    (∀ t, (PanTiltEndpoint.get_status t).2.length = 1) ∧
    (∀ t base, (PanTiltEndpoint.get_position t base).2.length = 1) ∧
    (∀ t base pan tilt, (PanTiltEndpoint.set_position t base pan tilt).2.length = 1) ∧
    (∀ t base d s ps ts, (PanTiltEndpoint.relative_move t base d s ps ts).2.length = 1) ∧
    (∀ t base ps ts, (PanTiltEndpoint.continuous_move t base ps ts).2.length = 1) ∧
    (∀ t base, (PanTiltEndpoint.stop t base).2.length = 1) ∧
    (∀ t base, (PanTiltEndpoint.home t base).2.length = 1) ∧
    (∀ t base, (PanTiltEndpoint.get_config t base).2.length = 1) ∧
    (∀ t base, (PanTiltEndpoint.get_gyrostatus t base).2.length = 1) ∧
    (∀ t base s, (PanTiltEndpoint.set_gyrostatus t base s).2.length = 1) ∧
    (∀ t base, (PanTiltEndpoint.get_ethernet_config t base).2.length = 1) ∧
    (∀ t base, (VisibleLensEndpoint.get_visiblelens t base).2.length = 1) ∧
    (∀ t base z, (VisibleLensEndpoint.set_zoom t base z).2.length = 1) ∧
    (∀ t base z f, (VisibleLensEndpoint.set_visiblelens t base z f).2.length = 1) ∧
    (∀ t base m, m ∈ VisibleLensEndpoint.valid_color_modes →
      (VisibleLensEndpoint.set_color t base m).2.length = 1) ∧
    (∀ t base, (VisibleLensEndpoint.run_backfocus t base).2.length = 1) ∧
    (∀ t base m, (VisibleLensEndpoint.set_digitalzoom t base m).2.length = 1) ∧
    (∀ t base e, (VisibleLensEndpoint.set_digital_stabilization t base e).2.length = 1) ∧
    (∀ t base m, m ∈ VisibleLensEndpoint.valid_zooms →
      (VisibleLensEndpoint.move_lens t base m).2.length = 1) ∧
    (∀ t base, (VisibleLensEndpoint.stop_lens t base).2.length = 1) ∧
    (∀ t base s, (VisibleLensEndpoint.set_fogfilter t base s).2.length = 1) ∧
    (∀ t base e, (VisibleLensEndpoint.set_autofocus_mode t base e).2.length = 1) ∧
    (∀ t base, (VisibleLensEndpoint.autofocus t base).2.length = 1) ∧
    (∀ t base m, m ∈ VisibleLensEndpoint.valid_heatwave_modes →
      (VisibleLensEndpoint.set_heatwave_intensity t base m).2.length = 1) ∧
    (∀ t base, (VisibleLensEndpoint.get_config t base).2.length = 1) ∧
    (∀ t base, (VisibleLensEndpoint.set_config t base).2.length = 1) ∧
    (∀ t base, (VisibleLensEndpoint.zoomTele t base).2.length = 1) ∧
    (∀ t base, (VisibleLensEndpoint.zoomWide t base).2.length = 1) ∧
    (∀ t base, (VisibleLensEndpoint.focusFar t base).2.length = 1) ∧
    (∀ t base, (VisibleLensEndpoint.focusNear t base).2.length = 1) ∧
    (∀ t base s, (VisibleLensEndpoint.continuous_zoom t base s).2.length = 1) ∧
    (∀ t, (DeviceEndpoint.get_devices t).2.length = 1) ∧
    (∀ t base n, (DeviceEndpoint.get_device_state t base n).2.length = 1) ∧
    (∀ t base n, (DeviceEndpoint.reinitialize_device t base n).2.length = 1) ∧
    (∀ t, (SystemEndpoint.get_status t).2.length = 1) ∧
    (∀ t base, (SystemEndpoint.get_versions t base).2.length = 1) ∧
    (∀ t base, (SystemEndpoint.get_info t base).2.length = 1) ∧
    (∀ t base, (SystemEndpoint.get_time t base).2.length = 1) ∧
    (∀ t base ts, (SystemEndpoint.set_time t base ts).2.length = 1) ∧
    (∀ t base, (SystemEndpoint.get_ethernet t base).2.length = 1) ∧
    (∀ t base, (SystemEndpoint.get_accounts t base).2.length = 1) ∧
    (∀ t base n, (SystemEndpoint.get_account t base n).2.length = 1) ∧
    (∀ t base, (SystemEndpoint.restart_hardware t base).2.length = 1) ∧
    (∀ t base, (SystemEndpoint.restart_software t base).2.length = 1) ∧
    (∀ t base, (SystemEndpoint.get_presets t base).2.length = 1) ∧
    (∀ t base i, (SystemEndpoint.get_preset t base i).2.length = 1) ∧
    (∀ t base i, (SystemEndpoint.delete_preset t base i).2.length = 1) ∧
    (∀ t base i, (SystemEndpoint.goto_preset t base i).2.length = 1) ∧
    (∀ t base, (SystemEndpoint.stop_preset_move t base).2.length = 1) ∧
    (∀ t base, (SystemEndpoint.delete_all_presets t base).2.length = 1) := by
  refine ⟨fun t => rfl, fun t base => rfl, fun t base pan tilt => rfl, ?_, ?_,
    fun t base => rfl, fun t base => rfl, fun t base => rfl, fun t base => rfl,
    fun t base s => rfl, fun t base => rfl, fun t base => rfl, fun t base z => rfl,
    fun t base z f => rfl, ?_, fun t base => rfl, fun t base m => rfl,
    fun t base e => rfl, ?_, fun t base => rfl, fun t base s => rfl,
    fun t base e => rfl, fun t base => rfl, ?_, fun t base => rfl, fun t base => rfl,
    fun t base => rfl, fun t base => rfl, fun t base => rfl, fun t base => rfl, ?_,
    fun t => rfl, fun t base n => rfl, fun t base n => rfl, fun t => rfl,
    fun t base => rfl, fun t base => rfl, fun t base => rfl, fun t base ts => rfl,
    fun t base => rfl, fun t base => rfl, fun t base n => rfl, fun t base => rfl,
    fun t base => rfl, fun t base => rfl, fun t base i => rfl, fun t base i => rfl,
    fun t base i => rfl, fun t base => rfl, fun t base => rfl⟩
  · intro t base d s ps ts
    unfold PanTiltEndpoint.relative_move
    cases s <;> rfl
  · intro t base ps ts
    simp only [PanTiltEndpoint.continuous_move]
    repeat' split
    all_goals rfl
  · intro t base m hm
    unfold VisibleLensEndpoint.set_color
    rw [if_neg (not_not_intro hm)]
    rfl
  · intro t base m hm
    unfold VisibleLensEndpoint.move_lens
    rw [if_neg (not_not_intro hm)]
    rfl
  · intro t base m hm
    unfold VisibleLensEndpoint.set_heatwave_intensity
    rw [if_neg (not_not_intro hm)]
    rfl
  · intro t base s
    unfold VisibleLensEndpoint.continuous_zoom
    split
    · rfl
    · split <;> rfl

theorem claim_C9_witness :
    (VisibleLensEndpoint.set_color (fun _ => HttpOutcome.success (Json.obj []))
        "http://cam" "day").2.length = 1 ∧
    (VisibleLensEndpoint.move_lens (fun _ => HttpOutcome.success (Json.obj []))
        "http://cam" "zoomTele").2.length = 1 ∧
    (VisibleLensEndpoint.set_heatwave_intensity (fun _ => HttpOutcome.success (Json.obj []))
        "http://cam" "Low").2.length = 1 := by
  obtain ⟨-, -, -, -, -, -, -, -, -, -, -, -, -, -, hcolor, -, -, -, hlens, -, -, -, -,
    hheat, -⟩ := claim_C9_exactly_one_request
  exact ⟨hcolor (fun _ => HttpOutcome.success (Json.obj [])) "http://cam" "day" (by decide),
    hlens (fun _ => HttpOutcome.success (Json.obj [])) "http://cam" "zoomTele" (by decide),
    hheat (fun _ => HttpOutcome.success (Json.obj [])) "http://cam" "Low" (by decide)⟩

/-- C10: with both speeds zero, `continuous_move` issues the stop command
but discards its response and returns `None` (the method body returns
nothing on that branch); for any other speed pair it issues a single move
command (`command=move` first in the query mapping) and returns the
request caller's unwrapped response for exactly that request. -/
theorem claim_C10_continuous_move_return (t : Transport) (base : String)
    (pan_speed tilt_speed : Int) (h : ¬(pan_speed = 0 ∧ tilt_speed = 0)) :
    (PanTiltEndpoint.continuous_move t base 0 0).1 = none ∧
    ∃ qs,
      (PanTiltEndpoint.continuous_move t base pan_speed tilt_speed).2 =
        [⟨"GET", RWYAPICaller.build_path_with_query base PanTiltEndpoint.endpoint none
            (some (("command", "move") :: qs)), none⟩] ∧
      (PanTiltEndpoint.continuous_move t base pan_speed tilt_speed).1 =
        unwrapResponse (t ⟨"GET", RWYAPICaller.build_path_with_query base
            PanTiltEndpoint.endpoint none (some (("command", "move") :: qs)), none⟩) := by
  refine ⟨rfl, ?_⟩
  have hcond : ((if pan_speed > 0 then some "right" else if pan_speed < 0 then some "left"
        else none : Option String).isNone &&
      (if tilt_speed > 0 then some "up" else if tilt_speed < 0 then some "down"
        else none : Option String).isNone) = false := by
    rcases lt_trichotomy pan_speed 0 with hp | hp | hp
    · simp [asymm hp, hp]
    · subst hp
      rcases lt_trichotomy tilt_speed 0 with ht | ht | ht
      · simp [asymm ht, ht]
      · exact absurd ⟨rfl, ht⟩ h
      · simp [ht]
    · simp [hp]
  simp only [PanTiltEndpoint.continuous_move]
  rw [hcond]
  exact ⟨_, rfl, rfl⟩

theorem claim_C10_witness :
    ∃ qs,
      (PanTiltEndpoint.continuous_move (fun _ => HttpOutcome.success (Json.obj []))
          "http://cam" 5 (-3)).2 =
        [⟨"GET", RWYAPICaller.build_path_with_query "http://cam" PanTiltEndpoint.endpoint none
            (some (("command", "move") :: qs)), none⟩] ∧
      (PanTiltEndpoint.continuous_move (fun _ => HttpOutcome.success (Json.obj []))
          "http://cam" 5 (-3)).1 =
        unwrapResponse ((fun _ => HttpOutcome.success (Json.obj []) : Transport)
          ⟨"GET", RWYAPICaller.build_path_with_query "http://cam" PanTiltEndpoint.endpoint none
            (some (("command", "move") :: qs)), none⟩) :=
  (claim_C10_continuous_move_return (fun _ => HttpOutcome.success (Json.obj []))
    "http://cam" 5 (-3) (by decide)).2
